import Mathlib

/-!
Verification of the storage-abstraction layer of the HWH Player Advantage
backend (`backend/server.py`).

The development shallowly embeds the two backend implementations the claims
are about:

* `DemoCollection` — the in-memory collection (server.py lines 119-170),
  modelled as pure functions over a `List Doc` collection state;
* `SupabaseCollection` — the table-service adapter (server.py lines 214-311),
  modelled as functions from the outcome of the underlying HTTP call
  (`Except SupaErr SupaResponse`, the `execute()` result or the exception it
  raised) to the value the Python method returns;
* the two registries `DemoDB` / `SupabaseDB` (lines 172-183 and 313-325),
  modelled with explicit state and an allocation token standing for Python
  object identity.

Python dictionaries are embedded as association lists with unique keys kept
in insertion order; `dict.get(k)` returning `None` for a missing key is
`pyGet`, which returns `Value.null` exactly as Python's `None` flows through
the comparison `item.get(k) == v`.  The value universe is restricted to the
constructors the claims exercise (null, booleans, integers, strings).
-/

/-- A document field value.  Python `None` is `Value.null`. -/
inductive Value : Type where
  | null : Value
  | bool : Bool → Value
  | int : Int → Value
  | str : String → Value
  deriving DecidableEq, Repr

/-- A document: a Python dict, i.e. an insertion-ordered association list of
field name to value (keys unique in well-formed documents). -/
abbrev Doc : Type := List (String × Value)

/-- Python `item.get(k)`: the value stored at key `k`, or `None`
(`Value.null`) when the key is absent.  A key stored with value `None` and a
missing key are indistinguishable through `get`, exactly as in Python. -/
def pyGet (d : Doc) (k : String) : Value :=
  match d.lookup k with
  | some v => v
  | none => Value.null

/-- A query dict, as passed to find/find_one/count_documents/update_one/
delete_one. -/
abbrev Query : Type := List (String × Value)

/-- The shared matcher of `DemoCollection`:
`all(item.get(k) == v for k, v in query.items())`. -/
def matchesQuery (d : Doc) (q : Query) : Bool :=
  q.all fun kv => pyGet d kv.1 == kv.2

/-- Python `d[k] = v` on a dict: replaces the value in place when the key is
present (order preserved), otherwise appends the new pair. -/
def dictSet (d : Doc) (k : String) (v : Value) : Doc :=
  if d.any fun p => p.1 == k then
    d.map fun p => if p.1 == k then (k, v) else p
  else
    d ++ [(k, v)]

/-- Python `item.update(s)`: `d[k] = v` for each pair of `s` in order. -/
def dictUpdate (d : Doc) (s : List (String × Value)) : Doc :=
  s.foldl (fun acc p => dictSet acc p.1 p.2) d

namespace DemoCollection

/-- `DemoCollection.find_one` (server.py 126-131): the first stored document
matching the query, or `None`.  The Python code returns `item.copy()`, a
fresh dict equal field-for-field to the stored one; in the value semantics
the copy is the document itself. -/
def find_one (items : List Doc) (query : Query) : Option Doc :=
  items.find? fun item => matchesQuery item query

/-- `DemoCollection.find` (server.py 133-137): all stored documents matching
the query, in storage order.  `query` is `none` for the Python default
`None`; a `some []` query is also falsy in Python (`if not query`) and
returns everything. -/
def find (items : List Doc) (query : Option Query) : List Doc :=
  match query with
  | none => items
  | some q =>
    if q.isEmpty then items
    else items.filter fun item => matchesQuery item q

/-- `DemoCollection.insert_one` (server.py 139-141): unconditionally appends
the document.  The Python return object carries only `inserted_id`, which no
claim inspects, so the embedding returns the new collection state. -/
def insert_one (items : List Doc) (document : Doc) : List Doc :=
  items ++ [document]

/-- The update argument of `update_one`: a Python dict that may or may not
contain a `$set` key holding a field mapping. -/
structure UpdateArg where
  set? : Option (List (String × Value))
  deriving DecidableEq

/-- The body of `update_one`'s match branch:
`if '$set' in update: item.update(update['$set'])` — the matched document
after the (possibly absent) `$set` mapping has been applied. -/
def applySet (item : Doc) (update : UpdateArg) : Doc :=
  match update.set? with
  | some s => dictUpdate item s
  | none => item

/-- `DemoCollection.update_one` (server.py 143-150): walks the stored
documents in order; on the first match applies `item.update(update[$set])`
when the update dict has a `$set` key, and returns `modified_count = 1`
whether or not it does; returns `modified_count = 0` when nothing matches. -/
def update_one (items : List Doc) (query : Query) (update : UpdateArg) :
    List Doc × Nat :=
  match items with
  | [] => ([], 0)
  | item :: rest =>
    if matchesQuery item query then
      (applySet item update :: rest, 1)
    else
      let r := update_one rest query update
      (item :: r.1, r.2)

/-- `DemoCollection.delete_one` (server.py 152-158): removes the first match,
returning `deleted_count` 1 or 0. -/
def delete_one (items : List Doc) (query : Query) : List Doc × Nat :=
  match items with
  | [] => ([], 0)
  | item :: rest =>
    if matchesQuery item query then (rest, 1)
    else
      let r := delete_one rest query
      (item :: r.1, r.2)

/-- `DemoCollection.count_documents` (server.py 160-164):
`sum(1 for item in items if ...)`; `len(items)` when the query is falsy. -/
def count_documents (items : List Doc) (query : Option Query) : Nat :=
  match query with
  | none => items.length
  | some q =>
    if q.isEmpty then items.length
    else items.countP fun item => matchesQuery item q

/-- `DemoCollection.create_index` (server.py 166-167): a no-op in demo mode;
the collection state is untouched and no index constraint is recorded
anywhere. -/
def create_index (items : List Doc) (_key : String) (_unique : Bool) :
    List Doc :=
  items

end DemoCollection

/-- The error raised by a failed Supabase HTTP call (network/backend
failure). -/
inductive SupaErr : Type where
  | unavailable : String → SupaErr
  deriving DecidableEq

/-- The response object returned by a successful `execute()`:
`response.data` (possibly `None`) and `response.count` (possibly `None`). -/
structure SupaResponse where
  data : Option (List Doc)
  count : Option Nat
  deriving DecidableEq

namespace SupabaseCollection

/-- `SupabaseCollection.find_one` (server.py 219-233): on a successful call
returns the first row when `response.data` is non-empty, else `None`; when
`execute()` raises, the exception is caught, logged, and `None` is
returned. -/
def find_one (resp : Except SupaErr SupaResponse) : Option Doc :=
  match resp with
  | .ok r =>
    match r.data with
    | some (d :: _) => some d
    | _ => none
  | .error _ => none

/-- `SupabaseCollection.find` (server.py 235-247): on success returns
`response.data or []`; when `execute()` raises, the exception is caught,
logged, and `[]` is returned. -/
def find (resp : Except SupaErr SupaResponse) : List Doc :=
  match resp with
  | .ok r => r.data.getD []
  | .error _ => []

/-- `SupabaseCollection.count_documents` (server.py 295-307): on success
returns `response.count or 0`; when `execute()` raises, the exception is
caught, logged, and `0` is returned. -/
def count_documents (resp : Except SupaErr SupaResponse) : Nat :=
  match resp with
  | .ok r => r.count.getD 0
  | .error _ => 0

/-- The result object of `SupabaseCollection.update_one`. -/
structure MutateResult where
  modified_count : Nat
  deriving DecidableEq

/-- `SupabaseCollection.update_one` (server.py 266-279): on success returns
`modified_count = len(response.data)` (0 when `data` is falsy); when
`execute()` raises, the exception is caught, logged, and
`modified_count = 0` is returned. -/
def update_one (resp : Except SupaErr SupaResponse) : MutateResult :=
  match resp with
  | .ok r => ⟨(r.data.getD []).length⟩
  | .error _ => ⟨0⟩

/-- The result object of `SupabaseCollection.delete_one`. -/
structure DeleteResult where
  deleted_count : Nat
  deriving DecidableEq

/-- `SupabaseCollection.delete_one` (server.py 281-293): on success returns
`deleted_count = len(response.data)` (0 when `data` is falsy); when
`execute()` raises, the exception is caught, logged, and
`deleted_count = 0` is returned. -/
def delete_one (resp : Except SupaErr SupaResponse) : DeleteResult :=
  match resp with
  | .ok r => ⟨(r.data.getD []).length⟩
  | .error _ => ⟨0⟩

end SupabaseCollection

/-- Registry state shared by the two registries: the cache mapping a
collection name to its handle, plus an allocation counter.  A handle is
identified by the `Nat` token allocated when its Python object was
constructed, standing for object identity. -/
structure RegistryState where
  cache : List (String × Nat)
  nextId : Nat
  deriving DecidableEq

/-- `DemoDB.__getitem__` (server.py 177-180): constructs and caches a
`DemoCollection(name)` on first access, then returns the cached instance. -/
def DemoDB.getitem (db : RegistryState) (name : String) :
    Nat × RegistryState :=
  match db.cache.lookup name with
  | some h => (h, db)
  | none => (db.nextId, ⟨db.cache ++ [(name, db.nextId)], db.nextId + 1⟩)

/-- `SupabaseDB.__getitem__` (server.py 319-322): constructs and caches a
`SupabaseCollection(name)` on first access, then returns the cached
instance. -/
def SupabaseDB.getitem (db : RegistryState) (name : String) :
    Nat × RegistryState :=
  match db.cache.lookup name with
  | some h => (h, db)
  | none => (db.nextId, ⟨db.cache ++ [(name, db.nextId)], db.nextId + 1⟩)

/-! Association-list helper lemmas -/

theorem lookup_append {α : Type} (l1 l2 : List (String × α)) (k : String) :
    (l1 ++ l2).lookup k = ((l1.lookup k).or (l2.lookup k)) := by
  induction l1 with
  | nil => simp
  | cons p t ih =>
    rcases p with ⟨k0, v0⟩
    by_cases h : k = k0
    · have hb : (k == k0) = true := by simp [h]
      simp [List.lookup_cons, hb]
    · have hb : (k == k0) = false := by simp [h]
      simp [List.lookup_cons, hb, ih]

theorem lookup_eq_none_of_not_any {α : Type} (l : List (String × α))
    (k : String) (h : (l.any fun p => p.1 == k) = false) :
    l.lookup k = none := by
  induction l with
  | nil => simp
  | cons p t ih =>
    rcases p with ⟨k0, v0⟩
    simp only [List.any_cons, Bool.or_eq_false_iff] at h
    have hk : k ≠ k0 := fun he => by subst he; simp at h
    have hb : (k == k0) = false := by simp [hk]
    simp [List.lookup_cons, hb, ih h.2]

theorem lookup_map_set (d : Doc) (k : String) (v : Value)
    (hany : (d.any fun p => p.1 == k) = true) :
    (d.map fun p => if p.1 == k then (k, v) else p).lookup k = some v := by
  induction d with
  | nil => simp at hany
  | cons p t ih =>
    rcases p with ⟨k0, v0⟩
    by_cases h0 : k0 = k
    · have hb : ((k0 : String) == k) = true := by simp [h0]
      have hb2 : (k == k) = true := by simp
      simp only [List.map_cons, hb, if_true, List.lookup_cons, hb2]
    · have hne : ((k0 : String) == k) = false := by simp [h0]
      have hb2 : (k == k0) = false := by simp [Ne.symm h0]
      simp only [List.any_cons, hne, Bool.false_or] at hany
      simp only [List.map_cons, hne, Bool.false_eq_true, if_false,
        List.lookup_cons, hb2]
      exact ih hany

theorem lookup_map_set_ne (d : Doc) (k' : String) (v : Value) (k : String)
    (hne : k ≠ k') :
    (d.map fun p => if p.1 == k' then (k', v) else p).lookup k = d.lookup k := by
  induction d with
  | nil => simp
  | cons p t ih =>
    rcases p with ⟨k0, v0⟩
    by_cases h0 : k0 = k'
    · subst h0
      have hb : ((k0 : String) == k0) = true := by simp
      have hb2 : (k == k0) = false := by simp [hne]
      simp only [List.map_cons, hb, if_true, List.lookup_cons, hb2]
      exact ih
    · have hb : ((k0 : String) == k') = false := by simp [h0]
      by_cases hk : k = k0
      · have hb2 : (k == k0) = true := by simp [hk]
        simp only [List.map_cons, hb, Bool.false_eq_true, if_false,
          List.lookup_cons, hb2]
      · have hb2 : (k == k0) = false := by simp [hk]
        simp only [List.map_cons, hb, Bool.false_eq_true, if_false,
          List.lookup_cons, hb2]
        exact ih

theorem dictSet_lookup_self (d : Doc) (k : String) (v : Value) :
    (dictSet d k v).lookup k = some v := by
  unfold dictSet
  by_cases hany : (d.any fun p => p.1 == k) = true
  · simp only [hany, if_true]
    exact lookup_map_set d k v hany
  · have h2 : (d.any fun p => p.1 == k) = false := by
      cases h : d.any fun p => p.1 == k
      · rfl
      · exact absurd h hany
    simp only [h2, Bool.false_eq_true, if_false]
    rw [lookup_append, lookup_eq_none_of_not_any d k h2]
    simp [List.lookup_cons]

theorem dictSet_lookup_ne (d : Doc) (k' : String) (v : Value) (k : String)
    (h : k ≠ k') :
    (dictSet d k' v).lookup k = d.lookup k := by
  unfold dictSet
  by_cases hany : (d.any fun p => p.1 == k') = true
  · simp only [hany, if_true]
    exact lookup_map_set_ne d k' v k h
  · have h2 : (d.any fun p => p.1 == k') = false := by
      cases hh : d.any fun p => p.1 == k'
      · rfl
      · exact absurd hh hany
    simp only [h2, Bool.false_eq_true, if_false]
    rw [lookup_append]
    have hb : (k == k') = false := by simp [h]
    have hsingle : ([(k', v)] : Doc).lookup k = none := by
      simp [List.lookup_cons, hb]
    rw [hsingle]
    cases d.lookup k <;> rfl

theorem pyGet_dictSet_self (d : Doc) (k : String) (v : Value) :
    pyGet (dictSet d k v) k = v := by
  unfold pyGet
  rw [dictSet_lookup_self]

theorem pyGet_dictSet_ne (d : Doc) (k' : String) (v : Value) (k : String)
    (h : k ≠ k') :
    pyGet (dictSet d k' v) k = pyGet d k := by
  unfold pyGet
  rw [dictSet_lookup_ne d k' v k h]

theorem dictUpdate_cons (d : Doc) (p : String × Value)
    (t : List (String × Value)) :
    dictUpdate d (p :: t) = dictUpdate (dictSet d p.1 p.2) t := rfl

theorem pyGet_dictUpdate_not_mem (d : Doc) (s : List (String × Value))
    (k : String) (h : k ∉ s.map Prod.fst) :
    pyGet (dictUpdate d s) k = pyGet d k := by
  induction s generalizing d with
  | nil => rfl
  | cons p t ih =>
    rcases p with ⟨k1, v1⟩
    simp only [List.map_cons, List.mem_cons] at h
    push_neg at h
    rw [dictUpdate_cons]
    exact (ih (dictSet d k1 v1) h.2).trans (pyGet_dictSet_ne d k1 v1 k h.1)

theorem pyGet_dictUpdate_mem (d : Doc) (s : List (String × Value))
    (k : String) (v : Value) (hnd : (s.map Prod.fst).Nodup)
    (hmem : (k, v) ∈ s) :
    pyGet (dictUpdate d s) k = v := by
  induction s generalizing d with
  | nil => cases hmem
  | cons p t ih =>
    rcases p with ⟨k1, v1⟩
    rw [dictUpdate_cons]
    simp only [List.map_cons, List.nodup_cons] at hnd
    rcases List.mem_cons.1 hmem with heq | hmem2
    · cases heq
      rw [pyGet_dictUpdate_not_mem _ _ _ hnd.1, pyGet_dictSet_self]
    · exact ih (dictSet d k1 v1) hnd.2 hmem2

/-! Structure of `update_one` at the first matching document -/

theorem update_one_first_match (items : List Doc) (q : Query)
    (u : DemoCollection.UpdateArg)
    (hmatch : ∃ d ∈ items, matchesQuery d q = true) :
    ∃ j, j < items.length ∧
      (∀ i, i < j → matchesQuery (items.getD i []) q = false) ∧
      matchesQuery (items.getD j []) q = true ∧
      (DemoCollection.update_one items q u).2 = 1 ∧
      (DemoCollection.update_one items q u).1.length = items.length ∧
      (∀ i, i ≠ j →
        (DemoCollection.update_one items q u).1.getD i [] = items.getD i []) ∧
      (DemoCollection.update_one items q u).1.getD j [] =
        DemoCollection.applySet (items.getD j []) u := by
  induction items with
  | nil =>
    rcases hmatch with ⟨d, hd, _⟩
    cases hd
  | cons item rest ih =>
    by_cases hm : matchesQuery item q = true
    · refine ⟨0, Nat.succ_pos _, ?_, ?_, ?_, ?_, ?_, ?_⟩
      · intro i hi
        omega
      · simpa using hm
      · simp [DemoCollection.update_one, hm]
      · simp [DemoCollection.update_one, hm]
      · intro i hi
        cases i with
        | zero => exact absurd rfl hi
        | succ n => simp [DemoCollection.update_one, hm]
      · simp [DemoCollection.update_one, hm]
    · have hmf : matchesQuery item q = false := by
        cases hx : matchesQuery item q
        · rfl
        · exact absurd hx hm
      have hmatch2 : ∃ d ∈ rest, matchesQuery d q = true := by
        rcases hmatch with ⟨d, hd, hdq⟩
        rcases List.mem_cons.1 hd with rfl | hd2
        · exact absurd hdq hm
        · exact ⟨d, hd2, hdq⟩
      rcases ih hmatch2 with ⟨j, hj, hlt, hjm, hcnt, hlen, hoth, happ⟩
      refine ⟨j + 1, by simpa using Nat.succ_lt_succ hj, ?_, ?_, ?_, ?_, ?_, ?_⟩
      · intro i hi
        cases i with
        | zero => simpa using hmf
        | succ n => simpa using hlt n (by omega)
      · simpa using hjm
      · simpa [DemoCollection.update_one, hmf] using hcnt
      · simpa [DemoCollection.update_one, hmf] using hlen
      · intro i hi
        cases i with
        | zero => simp [DemoCollection.update_one, hmf]
        | succ n =>
          have hn : n ≠ j := by omega
          simpa [DemoCollection.update_one, hmf] using hoth n hn
      · simpa [DemoCollection.update_one, hmf] using happ

/-- C4: on the in-memory backend, for every document D with an `id` field
and every collection state containing no document whose `id` equals D's,
`insert_one(D)` followed by `find_one({id: D.id})` returns a document equal
to D in every field. -/
theorem demo_insert_find_one_roundtrip (items : List Doc) (D : Doc)
    (idv : Value) (hid : D.lookup "id" = some idv)
    (hfresh : ∀ d ∈ items, pyGet d "id" ≠ idv) :
    DemoCollection.find_one (DemoCollection.insert_one items D)
      [("id", idv)] = some D := by
  unfold DemoCollection.insert_one DemoCollection.find_one
  rw [List.find?_append]
  have h1 : items.find? (fun item => matchesQuery item [("id", idv)]) = none := by
    apply List.find?_eq_none.2
    intro d hd
    simpa [matchesQuery] using hfresh d hd
  have h2 : matchesQuery D [("id", idv)] = true := by
    simp [matchesQuery, pyGet, hid]
  rw [h1]
  simp [List.find?_cons, h2]

/-- C4 witness: inserting `{id: "p1"}` into the empty collection and
querying `{id: "p1"}` returns the document itself. -/
theorem demo_insert_find_one_roundtrip_witness :
    DemoCollection.find_one
      (DemoCollection.insert_one ([] : List Doc) [("id", Value.str "p1")])
      [("id", Value.str "p1")] = some [("id", Value.str "p1")] :=
  demo_insert_find_one_roundtrip [] [("id", Value.str "p1")]
    (Value.str "p1") rfl (fun d hd => absurd hd (List.not_mem_nil d))

/-- C5: partial-update frame property on the in-memory backend — for every
stored document D and field mapping S (distinct field names),
`update_one({id: D.id}, {$set: S})` changes exactly the fields named in S on
the first document matching the query: that document takes S's value on
every field S names, keeps its pre-update value on every field S does not
name, and every other document in the collection is unchanged. -/
theorem demo_update_one_set_frame (items : List Doc) (D : Doc)
    (S : List (String × Value)) (hD : D ∈ items)
    (hS : (S.map Prod.fst).Nodup) :
    ∃ j, j < items.length ∧
      (∀ i, i < j →
        matchesQuery (items.getD i []) [("id", pyGet D "id")] = false) ∧
      matchesQuery (items.getD j []) [("id", pyGet D "id")] = true ∧
      (DemoCollection.update_one items [("id", pyGet D "id")] ⟨some S⟩).2
        = 1 ∧
      (DemoCollection.update_one items [("id", pyGet D "id")]
        ⟨some S⟩).1.length = items.length ∧
      (∀ i, i ≠ j →
        (DemoCollection.update_one items [("id", pyGet D "id")]
          ⟨some S⟩).1.getD i [] = items.getD i []) ∧
      (∀ k, k ∉ S.map Prod.fst →
        pyGet ((DemoCollection.update_one items [("id", pyGet D "id")]
          ⟨some S⟩).1.getD j []) k = pyGet (items.getD j []) k) ∧
      (∀ kv ∈ S,
        pyGet ((DemoCollection.update_one items [("id", pyGet D "id")]
          ⟨some S⟩).1.getD j []) kv.1 = kv.2) := by
  have hmatch : ∃ d ∈ items,
      matchesQuery d [("id", pyGet D "id")] = true :=
    ⟨D, hD, by simp [matchesQuery]⟩
  rcases update_one_first_match items [("id", pyGet D "id")] ⟨some S⟩
    hmatch with ⟨j, hj, hlt, hjm, hcnt, hlen, hoth, happ⟩
  refine ⟨j, hj, hlt, hjm, hcnt, hlen, hoth, ?_, ?_⟩
  · intro k hk
    rw [happ]
    exact pyGet_dictUpdate_not_mem _ _ _ hk
  · intro kv hkv
    rcases kv with ⟨k, v⟩
    rw [happ]
    exact pyGet_dictUpdate_mem _ _ _ _ hS hkv

/-- C5 witness: the frame property instantiated on the one-document
collection `[{id: "x", a: 1}]` with the set mapping `{a: 2}`. -/
theorem demo_update_one_set_frame_witness :
    ∃ j, j < ([[("id", Value.str "x"), ("a", Value.int 1)]] : List Doc).length ∧
      (∀ i, i < j →
        matchesQuery (([[("id", Value.str "x"), ("a", Value.int 1)]] : List Doc).getD i [])
          [("id", pyGet [("id", Value.str "x"), ("a", Value.int 1)] "id")] = false) ∧
      matchesQuery (([[("id", Value.str "x"), ("a", Value.int 1)]] : List Doc).getD j [])
        [("id", pyGet [("id", Value.str "x"), ("a", Value.int 1)] "id")] = true ∧
      (DemoCollection.update_one [[("id", Value.str "x"), ("a", Value.int 1)]]
        [("id", pyGet [("id", Value.str "x"), ("a", Value.int 1)] "id")]
        ⟨some [("a", Value.int 2)]⟩).2 = 1 ∧
      (DemoCollection.update_one [[("id", Value.str "x"), ("a", Value.int 1)]]
        [("id", pyGet [("id", Value.str "x"), ("a", Value.int 1)] "id")]
        ⟨some [("a", Value.int 2)]⟩).1.length
        = ([[("id", Value.str "x"), ("a", Value.int 1)]] : List Doc).length ∧
      (∀ i, i ≠ j →
        (DemoCollection.update_one [[("id", Value.str "x"), ("a", Value.int 1)]]
          [("id", pyGet [("id", Value.str "x"), ("a", Value.int 1)] "id")]
          ⟨some [("a", Value.int 2)]⟩).1.getD i []
          = ([[("id", Value.str "x"), ("a", Value.int 1)]] : List Doc).getD i []) ∧
      (∀ k, k ∉ ([("a", Value.int 2)] : List (String × Value)).map Prod.fst →
        pyGet ((DemoCollection.update_one [[("id", Value.str "x"), ("a", Value.int 1)]]
          [("id", pyGet [("id", Value.str "x"), ("a", Value.int 1)] "id")]
          ⟨some [("a", Value.int 2)]⟩).1.getD j []) k
          = pyGet (([[("id", Value.str "x"), ("a", Value.int 1)]] : List Doc).getD j []) k) ∧
      (∀ kv ∈ ([("a", Value.int 2)] : List (String × Value)),
        pyGet ((DemoCollection.update_one [[("id", Value.str "x"), ("a", Value.int 1)]]
          [("id", pyGet [("id", Value.str "x"), ("a", Value.int 1)] "id")]
          ⟨some [("a", Value.int 2)]⟩).1.getD j []) kv.1 = kv.2) :=
  demo_update_one_set_frame [[("id", Value.str "x"), ("a", Value.int 1)]]
    [("id", Value.str "x"), ("a", Value.int 1)] [("a", Value.int 2)]
    (List.mem_singleton.2 rfl) (by simp)

/-- C6: insertion-order stability on the in-memory backend — starting from
an empty players collection, after inserting p1 (verified false) then p2
(verified true) and then setting p1's verified to true via `update_one`,
`find({verified: true})` returns both documents with p1 before p2: result
order follows insertion order, not mutation order. -/
theorem demo_find_insertion_order_stable :
    DemoCollection.find
      (DemoCollection.update_one
        (DemoCollection.insert_one
          (DemoCollection.insert_one ([] : List Doc)
            [("id", Value.str "p1"), ("grad_class", Value.str "2026"),
             ("verified", Value.bool false)])
          [("id", Value.str "p2"), ("grad_class", Value.str "2027"),
           ("verified", Value.bool true)])
        [("id", Value.str "p1")]
        ⟨some [("verified", Value.bool true)]⟩).1
      (some [("verified", Value.bool true)]) =
      [[("id", Value.str "p1"), ("grad_class", Value.str "2026"),
        ("verified", Value.bool true)],
       [("id", Value.str "p2"), ("grad_class", Value.str "2027"),
        ("verified", Value.bool true)]] := by
  rfl

/-- C7: equality semantics for a missing field on the in-memory backend —
for every document d, key k absent from d, and operand v, the query
`{k: v}` matches d if and only if v is null; consequently on the
single-document collection `[d]` each of find_one, find, count_documents,
update_one and delete_one treats d as a match exactly when v is null. -/
theorem demo_missing_field_eq_null_semantics (d : Doc) (k : String)
    (v : Value) (habsent : d.lookup k = none) :
    (matchesQuery d [(k, v)] = true ↔ v = Value.null) ∧
    DemoCollection.find_one [d] [(k, v)] =
      (if v = Value.null then some d else none) ∧
    DemoCollection.find [d] (some [(k, v)]) =
      (if v = Value.null then [d] else []) ∧
    DemoCollection.count_documents [d] (some [(k, v)]) =
      (if v = Value.null then 1 else 0) ∧
    DemoCollection.update_one [d] [(k, v)] ⟨none⟩ =
      ([d], if v = Value.null then 1 else 0) ∧
    DemoCollection.delete_one [d] [(k, v)] =
      ((if v = Value.null then [] else [d]),
       if v = Value.null then 1 else 0) := by
  have hget : pyGet d k = Value.null := by
    unfold pyGet
    rw [habsent]
  have hmq : matchesQuery d [(k, v)] = (Value.null == v) := by
    simp [matchesQuery, hget]
  by_cases hv : v = Value.null
  · subst hv
    have hm : matchesQuery d [(k, Value.null)] = true := by simp [hmq]
    refine ⟨?_, ?_, ?_, ?_, ?_, ?_⟩
    · simp [hm]
    all_goals
      simp [DemoCollection.find_one, DemoCollection.find,
        DemoCollection.count_documents, DemoCollection.update_one,
        DemoCollection.delete_one, DemoCollection.applySet,
        List.find?_cons, hm]
  · have hb : (Value.null == v) = false := by
      cases hx : (Value.null == v)
      · rfl
      · have he : Value.null = v := by simpa using hx
        exact absurd he.symm hv
    have hmf : matchesQuery d [(k, v)] = false := by rw [hmq, hb]
    refine ⟨?_, ?_, ?_, ?_, ?_, ?_⟩
    · simp [hmf, hv]
    all_goals
      simp [DemoCollection.find_one, DemoCollection.find,
        DemoCollection.count_documents, DemoCollection.update_one,
        DemoCollection.delete_one, List.find?_cons, hmf, hv]

/-- C7 witness: the missing-field semantics instantiated on the document
`{a: 1}`, the absent key "b", and the null operand. -/
theorem demo_missing_field_eq_null_semantics_witness :
    (matchesQuery [("a", Value.int 1)] [("b", Value.null)] = true ↔
      Value.null = Value.null) ∧
    DemoCollection.find_one [[("a", Value.int 1)]] [("b", Value.null)] =
      (if Value.null = Value.null then some [("a", Value.int 1)] else none) ∧
    DemoCollection.find [[("a", Value.int 1)]] (some [("b", Value.null)]) =
      (if Value.null = Value.null then [[("a", Value.int 1)]] else []) ∧
    DemoCollection.count_documents [[("a", Value.int 1)]]
      (some [("b", Value.null)]) =
      (if Value.null = Value.null then 1 else 0) ∧
    DemoCollection.update_one [[("a", Value.int 1)]] [("b", Value.null)]
      ⟨none⟩ =
      ([[("a", Value.int 1)]], if Value.null = Value.null then 1 else 0) ∧
    DemoCollection.delete_one [[("a", Value.int 1)]] [("b", Value.null)] =
      ((if Value.null = Value.null then [] else [[("a", Value.int 1)]]),
       if Value.null = Value.null then 1 else 0) :=
  demo_missing_field_eq_null_semantics [("a", Value.int 1)] "b"
    Value.null rfl

/-- C8: registry idempotence — for every registry state and collection
name, requesting the collection handle twice returns the same handle
instance and leaves the registry state unchanged, for both the in-memory
registry (`DemoDB`) and the table-service registry (`SupabaseDB`). -/
theorem registry_getitem_idempotent (db : RegistryState) (name : String) :
    DemoDB.getitem (DemoDB.getitem db name).2 name =
      DemoDB.getitem db name ∧
    SupabaseDB.getitem (SupabaseDB.getitem db name).2 name =
      SupabaseDB.getitem db name := by
  constructor
  · cases h : db.cache.lookup name with
    | some x => simp [DemoDB.getitem, h]
    | none =>
      have h2 : (db.cache ++ [(name, db.nextId)]).lookup name =
          some db.nextId := by
        rw [lookup_append, h]
        simp [List.lookup_cons]
      simp [DemoDB.getitem, h, h2]
  · cases h : db.cache.lookup name with
    | some x => simp [SupabaseDB.getitem, h]
    | none =>
      have h2 : (db.cache ++ [(name, db.nextId)]).lookup name =
          some db.nextId := by
        rw [lookup_append, h]
        simp [List.lookup_cons]
      simp [SupabaseDB.getitem, h, h2]

/-- C9: on the in-memory backend, `count_documents(query)` equals the
number of documents `find(query)` returns, and `count_documents` with no
query equals the total number of stored documents. -/
theorem demo_count_documents_eq_find_length (items : List Doc) (q : Query) :
    DemoCollection.count_documents items (some q) =
      (DemoCollection.find items (some q)).length ∧
    DemoCollection.count_documents items none = items.length := by
  constructor
  · unfold DemoCollection.count_documents DemoCollection.find
    by_cases hq : q.isEmpty
    · simp [hq]
    · simp only [hq, Bool.false_eq_true, if_false]
      exact List.countP_eq_length_filter _ _
  · rfl

/-- C10: on the in-memory backend, `update_one` with a query matching some
stored document and an update dict with no `$set` key returns
`modified_count = 1` while leaving the whole collection unchanged. -/
theorem demo_update_one_no_set (items : List Doc) (q : Query)
    (hmatch : (items.any fun d => matchesQuery d q) = true) :
    DemoCollection.update_one items q ⟨none⟩ = (items, 1) := by
  induction items with
  | nil => simp at hmatch
  | cons item rest ih =>
    by_cases hm : matchesQuery item q = true
    · simp [DemoCollection.update_one, hm, DemoCollection.applySet]
    · have hmf : matchesQuery item q = false := by
        cases hx : matchesQuery item q
        · rfl
        · exact absurd hx hm
      have hrest : (rest.any fun d => matchesQuery d q) = true := by
        simpa [List.any_cons, hmf] using hmatch
      simp [DemoCollection.update_one, hmf, ih hrest]

/-- C10 witness: an update with no `$set` key on a one-document collection
and the empty (match-all) query returns `modified_count = 1` and leaves the
collection unchanged. -/
theorem demo_update_one_no_set_witness :
    DemoCollection.update_one [[("a", Value.int 1)]] [] ⟨none⟩ =
      ([[("a", Value.int 1)]], 1) :=
  demo_update_one_no_set [[("a", Value.int 1)]] [] (by decide)

/-- C1 counterexample: a backend failure during the Supabase read
operations is not surfaced as an error — at the concrete failing call
`execute() raises unavailable("connection refused")`, `find` returns the
empty list, `find_one` returns None, and `count_documents` returns 0, each
indistinguishable from the corresponding successful empty-result call. -/
theorem supabase_read_failure_swallowed_cex :
    SupabaseCollection.find
      (Except.error (SupaErr.unavailable "connection refused")) =
      ([] : List Doc) ∧
    SupabaseCollection.find
      (Except.error (SupaErr.unavailable "connection refused")) =
      SupabaseCollection.find (Except.ok ⟨some [], none⟩) ∧
    SupabaseCollection.find_one
      (Except.error (SupaErr.unavailable "connection refused")) =
      (none : Option Doc) ∧
    SupabaseCollection.find_one
      (Except.error (SupaErr.unavailable "connection refused")) =
      SupabaseCollection.find_one (Except.ok ⟨some [], none⟩) ∧
    SupabaseCollection.count_documents
      (Except.error (SupaErr.unavailable "connection refused")) = 0 ∧
    SupabaseCollection.count_documents
      (Except.error (SupaErr.unavailable "connection refused")) =
      SupabaseCollection.count_documents (Except.ok ⟨some [], some 0⟩) :=
  ⟨rfl, rfl, rfl, rfl, rfl, rfl⟩

/-- C1 amended: for every backend failure during the Supabase read
operations, the exception is caught and the caller receives the empty
list, None, or zero respectively, presented as a successful outcome. -/
theorem supabase_read_failure_returns_empty (e : SupaErr) :
    SupabaseCollection.find (Except.error e) = ([] : List Doc) ∧
    SupabaseCollection.find_one (Except.error e) = (none : Option Doc) ∧
    SupabaseCollection.count_documents (Except.error e) = 0 :=
  ⟨rfl, rfl, rfl⟩

/-- C3 counterexample: a backend failure during the Supabase write
operations does not propagate — at the concrete failing call
`execute() raises unavailable("timeout")`, `update_one` returns
`modified_count = 0` and `delete_one` returns `deleted_count = 0`, each
equal to the result of a successful call that matched no rows. -/
theorem supabase_write_failure_swallowed_cex :
    (SupabaseCollection.update_one
      (Except.error (SupaErr.unavailable "timeout"))).modified_count = 0 ∧
    SupabaseCollection.update_one
      (Except.error (SupaErr.unavailable "timeout")) =
      SupabaseCollection.update_one (Except.ok ⟨some [], none⟩) ∧
    (SupabaseCollection.delete_one
      (Except.error (SupaErr.unavailable "timeout"))).deleted_count = 0 ∧
    SupabaseCollection.delete_one
      (Except.error (SupaErr.unavailable "timeout")) =
      SupabaseCollection.delete_one (Except.ok ⟨some [], none⟩) :=
  ⟨rfl, rfl, rfl, rfl⟩

/-- C3 amended: for every backend failure during the Supabase write
operations `update_one` and `delete_one`, the exception is caught and the
caller receives `modified_count = 0` (resp. `deleted_count = 0`), exactly
as if the write had completed against an unmatched query. -/
theorem supabase_write_failure_returns_zero (e : SupaErr) :
    SupabaseCollection.update_one (Except.error e) = ⟨0⟩ ∧
    SupabaseCollection.delete_one (Except.error e) = ⟨0⟩ :=
  ⟨rfl, rfl⟩

/-- C2 counterexample: after `create_index("email", unique=True)` on the
empty in-memory collection, inserting two documents with the same email
succeeds both times — the resulting document count is 2, not 1, so no
`DuplicateKeyError` was raised for the second insert. -/
theorem demo_unique_index_not_enforced_cex :
    DemoCollection.count_documents
      (DemoCollection.insert_one
        (DemoCollection.insert_one
          (DemoCollection.create_index ([] : List Doc) "email" true)
          [("email", Value.str "x@y.z")])
        [("email", Value.str "x@y.z")]) none = 2 ∧
    DemoCollection.count_documents
      (DemoCollection.insert_one
        (DemoCollection.insert_one
          (DemoCollection.create_index ([] : List Doc) "email" true)
          [("email", Value.str "x@y.z")])
        [("email", Value.str "x@y.z")]) none ≠ 1 :=
  ⟨rfl, by decide⟩

/-- C2 amended: `create_index` on the in-memory collection is a no-op
recording no uniqueness constraint, and `insert_one` never fails: after
`create_index(k, unique)` both inserts of documents with equal values of k
succeed and the document count increases by exactly 2. -/
theorem demo_unique_index_noop (items : List Doc) (k : String)
    (uniq : Bool) (d1 d2 : Doc) :
    DemoCollection.create_index items k uniq = items ∧
    DemoCollection.count_documents
      (DemoCollection.insert_one
        (DemoCollection.insert_one
          (DemoCollection.create_index items k uniq) d1) d2) none =
      DemoCollection.count_documents items none + 2 := by
  constructor
  · rfl
  · simp [DemoCollection.create_index, DemoCollection.insert_one,
      DemoCollection.count_documents]
